import Mathlib

/-!
Verification of the SOFA file-info tool (`sofainfo.cpp`) and the
`FreeFieldDirectivityTF` accessor interface (`SOFAFreeFieldDirectivityTF.h`)
against their natural-language specification.

The indexing helpers `array2DIndex` / `array3DIndex`, the `Print*` routines
and `main` are embedded from `src/libsofa/src/sofainfo.cpp`.  The accessor
implementations (`GetDataReal`, `GetDataImag`, `GetFrequencyValues`, the
rank-checked position reads) are declared in the repository but their
implementation files are not part of it; those are modelled from the spec,
and each such definition is marked `Modelled from the spec:`.

C `unsigned long` / `std::size_t` arithmetic is embedded as natural-number
arithmetic reduced modulo 2^64.
-/

/-- The modulus of C `unsigned long` / `std::size_t` arithmetic on the
target platform (64-bit). -/
def wordMod : Nat := 2 ^ 64

/-- Embedding of `array3DIndex` (sofainfo.cpp, lines 27-35):
`return dim2 * dim3 * i + dim3 * j + k;` computed in `std::size_t`
arithmetic, i.e. modulo 2^64. -/
def array3DIndex (i j k _dim1 dim2 dim3 : Nat) : Nat :=
  (dim2 * dim3 * i + dim3 * j + k) % wordMod

/-- Embedding of `array2DIndex` (sofainfo.cpp, lines 44-50):
`return dim2 * i + j;` computed in `std::size_t` arithmetic. -/
def array2DIndex (i j _dim1 dim2 : Nat) : Nat :=
  (dim2 * i + j) % wordMod

/-- The spec's row-major formula: for shape `[d0,...,dn-1]`, the flat index
of `(i0,...,in-1)` is `Σ ik * Π (dj for j > k)`. -/
def rowMajorIndex : List Nat → List Nat → Nat
  | _ :: ds, i :: is => i * ds.prod + rowMajorIndex ds is
  | _, _ => 0

theorem array2DIndex_eq {i j d1 : Nat} (d0 : Nat) (hw : d1 * i + j < wordMod) :
    array2DIndex i j d0 d1 = d1 * i + j :=
  Nat.mod_eq_of_lt hw

theorem array3DIndex_eq {i j k d1 d2 : Nat} (d0 : Nat)
    (hw : d1 * d2 * i + d2 * j + k < wordMod) :
    array3DIndex i j k d0 d1 d2 = d1 * d2 * i + d2 * j + k :=
  Nat.mod_eq_of_lt hw

/-- Claim C1: `array3DIndex(i,j,k,d0,d1,d2)` returns `d1*d2*i + d2*j + k`
and `array2DIndex(i,j,d0,d1)` returns `d1*i + j`, and both equal the
spec's row-major formula for their respective ranks (stated under the
condition that the value fits into a 64-bit `std::size_t`). -/
theorem array_index_eq_row_major (i j k d0 d1 d2 : Nat)
    (hw3 : d1 * d2 * i + d2 * j + k < wordMod)
    (hw2 : d1 * i + j < wordMod) :
    array3DIndex i j k d0 d1 d2 = d1 * d2 * i + d2 * j + k ∧
    array3DIndex i j k d0 d1 d2 = rowMajorIndex [d0, d1, d2] [i, j, k] ∧
    array2DIndex i j d0 d1 = d1 * i + j ∧
    array2DIndex i j d0 d1 = rowMajorIndex [d0, d1] [i, j] := by
  refine ⟨array3DIndex_eq d0 hw3, ?_, array2DIndex_eq d0 hw2, ?_⟩
  · rw [array3DIndex_eq d0 hw3]
    simp [rowMajorIndex]
    ring
  · rw [array2DIndex_eq d0 hw2]
    simp [rowMajorIndex]
    ring

/-- Witness for C1 at the concrete input `i=1, j=2, k=3, d0=4, d1=5, d2=6`. -/
theorem array_index_eq_row_major_witness :
    array3DIndex 1 2 3 4 5 6 = 5 * 6 * 1 + 6 * 2 + 3 ∧
    array3DIndex 1 2 3 4 5 6 = rowMajorIndex [4, 5, 6] [1, 2, 3] ∧
    array2DIndex 1 2 4 5 = 5 * 1 + 2 ∧
    array2DIndex 1 2 4 5 = rowMajorIndex [4, 5] [1, 2] :=
  array_index_eq_row_major 1 2 3 4 5 6 (by decide) (by decide)

/-- A valid 2D multi-index flattens strictly below the product of the
dimension sizes. -/
theorem flat2_lt {i j d0 d1 : Nat} (hi : i < d0) (hj : j < d1) :
    d1 * i + j < d0 * d1 := by
  calc d1 * i + j < d1 * i + d1 := Nat.add_lt_add_left hj _
    _ = d1 * (i + 1) := by ring
    _ ≤ d1 * d0 := Nat.mul_le_mul_left _ (Nat.succ_le_of_lt hi)
    _ = d0 * d1 := Nat.mul_comm _ _

/-- A valid 3D multi-index flattens strictly below the product of the
dimension sizes. -/
theorem flat3_lt {i j k d0 d1 d2 : Nat} (hi : i < d0) (hj : j < d1)
    (hk : k < d2) : d1 * d2 * i + d2 * j + k < d0 * d1 * d2 := by
  have hjk : d2 * j + k < d1 * d2 := flat2_lt hj hk
  calc d1 * d2 * i + d2 * j + k
      = d1 * d2 * i + (d2 * j + k) := by ring
    _ < d1 * d2 * i + d1 * d2 := Nat.add_lt_add_left hjk _
    _ = (d1 * d2) * (i + 1) := by ring
    _ ≤ (d1 * d2) * d0 := Nat.mul_le_mul_left _ (Nat.succ_le_of_lt hi)
    _ = d0 * d1 * d2 := by ring

theorem array2DIndex_eq_of_valid {i j d0 d1 : Nat} (hi : i < d0) (hj : j < d1)
    (hw : d0 * d1 ≤ wordMod) : array2DIndex i j d0 d1 = d1 * i + j :=
  array2DIndex_eq d0 (Nat.lt_of_lt_of_le (flat2_lt hi hj) hw)

theorem array3DIndex_eq_of_valid {i j k d0 d1 d2 : Nat} (hi : i < d0)
    (hj : j < d1) (hk : k < d2) (hw : d0 * d1 * d2 ≤ wordMod) :
    array3DIndex i j k d0 d1 d2 = d1 * d2 * i + d2 * j + k :=
  array3DIndex_eq d0 (Nat.lt_of_lt_of_le (flat3_lt hi hj hk) hw)

/-- Decoding a flat index of a `[d0,d1,d2]` row-major array by successive
division and modulo over the inner dimension sizes. -/
def unflatten3 (n d1 d2 : Nat) : Nat × Nat × Nat :=
  (n / d2 / d1, n / d2 % d1, n % d2)

/-- Decoding a flat index of a `[d0,d1]` row-major array by division and
modulo over the inner dimension size. -/
def unflatten2 (n d1 : Nat) : Nat × Nat :=
  (n / d1, n % d1)

theorem decode2 {i j d1 : Nat} (hj : j < d1) :
    (d1 * i + j) / d1 = i ∧ (d1 * i + j) % d1 = j := by
  have hd1 : 0 < d1 := Nat.lt_of_le_of_lt (Nat.zero_le _) hj
  constructor
  · rw [Nat.mul_add_div hd1, Nat.div_eq_of_lt hj, Nat.add_zero]
  · rw [Nat.mul_add_mod, Nat.mod_eq_of_lt hj]

/-- Claim C2: for every shape with positive dimensions and every valid
multi-index, the flat index computed by `array2DIndex` / `array3DIndex`
round-trips through successive division and modulo over the inner
dimension sizes, and always lies in `[0, d0*...*dn-1)` (stated under the
condition that the buffer size fits into a 64-bit `std::size_t`). -/
theorem flatten_round_trip (i j k d0 d1 d2 : Nat)
    (hi : i < d0) (hj : j < d1) (hk : k < d2)
    (hw3 : d0 * d1 * d2 ≤ wordMod) (hw2 : d0 * d1 ≤ wordMod) :
    unflatten3 (array3DIndex i j k d0 d1 d2) d1 d2 = (i, j, k) ∧
    array3DIndex i j k d0 d1 d2 < d0 * d1 * d2 ∧
    unflatten2 (array2DIndex i j d0 d1) d1 = (i, j) ∧
    array2DIndex i j d0 d1 < d0 * d1 := by
  rw [array3DIndex_eq_of_valid hi hj hk hw3, array2DIndex_eq_of_valid hi hj hw2]
  have hsplit : d1 * d2 * i + d2 * j + k = d2 * (d1 * i + j) + k := by ring
  have hdiv2 : (d1 * d2 * i + d2 * j + k) / d2 = d1 * i + j := by
    have hd2 : 0 < d2 := Nat.lt_of_le_of_lt (Nat.zero_le _) hk
    rw [hsplit, Nat.mul_add_div hd2, Nat.div_eq_of_lt hk, Nat.add_zero]
  have hmod2 : (d1 * d2 * i + d2 * j + k) % d2 = k := by
    rw [hsplit, Nat.mul_add_mod, Nat.mod_eq_of_lt hk]
  refine ⟨?_, flat3_lt hi hj hk, ?_, flat2_lt hi hj⟩
  · unfold unflatten3
    rw [hdiv2, hmod2, (decode2 hj).1, (decode2 hj).2]
  · unfold unflatten2
    rw [(decode2 hj).1, (decode2 hj).2]

/-- Witness for C2 at the concrete valid multi-index `(1,2,3)` of shape
`[2,3,4]`. -/
theorem flatten_round_trip_witness :
    unflatten3 (array3DIndex 1 2 3 2 3 4) 3 4 = (1, 2, 3) ∧
    array3DIndex 1 2 3 2 3 4 < 2 * 3 * 4 ∧
    unflatten2 (array2DIndex 1 2 2 3) 3 = (1, 2) ∧
    array2DIndex 1 2 2 3 < 2 * 3 :=
  flatten_round_trip 1 2 3 2 3 4 (by decide) (by decide) (by decide)
    (by decide) (by decide)

/-- Claim C8: the values of `array2DIndex` and `array3DIndex` are
independent of their first dimension-size parameter `dim1`; in particular
a first index `i ≥ dim1` is not detected and still produces the flat index
computed from the inner dimensions alone. -/
theorem array_index_ignores_dim1 : ∀ i j k d1 d1' d2 d3 : Nat,
    array3DIndex i j k d1 d2 d3 = array3DIndex i j k d1' d2 d3 ∧
    array2DIndex i j d1 d2 = array2DIndex i j d1' d2 := by
  intro i j k d1 d1' d2 d3
  exact ⟨rfl, rfl⟩

/-- A nested row-major loop `for i < d0: for j < d1: visit (d1*i + j)`
enumerates exactly the range `[0, d0*d1)` in order. -/
theorem rangeFlat2 (d0 d1 : Nat) (g : Nat → α) :
    ((List.range d0).flatMap fun i =>
      (List.range d1).map fun j => g (d1 * i + j)) =
    (List.range (d0 * d1)).map g := by
  induction d0 with
  | zero => simp
  | succ n ih =>
    rw [List.range_succ, List.flatMap_append, ih, Nat.succ_mul,
      List.range_add, List.map_append, List.map_map]
    simp only [List.flatMap_cons, List.flatMap_nil, List.append_nil]
    congr 1
    apply List.map_congr_left
    intro j _
    simp [Nat.mul_comm, Nat.add_comm]

/-- Reading a list at every position of `range` of its length, in order,
reproduces the list. -/
theorem map_getD_range (l : List α) (d : α) :
    (List.range l.length).map (fun m => l.getD m d) = l := by
  apply List.ext_getElem
  · simp
  · intro n h1 h2
    simp only [List.getElem_map, List.getElem_range]
    rw [List.getD_eq_getElem?_getD, List.getElem?_eq_getElem h2]
    rfl

/-- The flat indices produced, in loop order, by the rank-2 print loops
`for i < d0: for j < d1: array2DIndex(i, j, d0, d1)` of sofainfo.cpp. -/
def print2DIndices (d0 d1 : Nat) : List Nat :=
  (List.range d0).flatMap fun i =>
    (List.range d1).map fun j => array2DIndex i j d0 d1

/-- The flat indices produced, in loop order, by the rank-3 print loops
`for i < d0: for j < d1: for k < d2: array3DIndex(i, j, k, d0, d1, d2)`
of sofainfo.cpp. -/
def print3DIndices (d0 d1 d2 : Nat) : List Nat :=
  (List.range d0).flatMap fun i =>
    (List.range d1).flatMap fun j =>
      (List.range d2).map fun k => array3DIndex i j k d0 d1 d2

/-- The rank-2 print loops enumerate exactly the flat positions
`0, 1, ..., d0*d1 - 1` in order. -/
theorem print2DIndices_eq_range {d0 d1 : Nat} (hw : d0 * d1 ≤ wordMod) :
    print2DIndices d0 d1 = List.range (d0 * d1) := by
  unfold print2DIndices
  have hcongr : ((List.range d0).flatMap fun i =>
      (List.range d1).map fun j => array2DIndex i j d0 d1) =
      ((List.range d0).flatMap fun i =>
        (List.range d1).map fun j => d1 * i + j) := by
    apply List.flatMap_congr
    intro i hi
    apply List.map_congr_left
    intro j hj
    exact array2DIndex_eq_of_valid (List.mem_range.mp hi)
      (List.mem_range.mp hj) hw
  rw [hcongr]
  simpa using rangeFlat2 d0 d1 (fun m : Nat => m)

/-- The rank-3 print loops enumerate exactly the flat positions
`0, 1, ..., d0*d1*d2 - 1` in order. -/
theorem print3DIndices_eq_range {d0 d1 d2 : Nat}
    (hw : d0 * d1 * d2 ≤ wordMod) :
    print3DIndices d0 d1 d2 = List.range (d0 * d1 * d2) := by
  unfold print3DIndices
  have hcongr : ((List.range d0).flatMap fun i =>
      (List.range d1).flatMap fun j =>
        (List.range d2).map fun k => array3DIndex i j k d0 d1 d2) =
      ((List.range d0).flatMap fun i =>
        (List.range (d1 * d2)).map fun m => (d1 * d2) * i + m) := by
    apply List.flatMap_congr
    intro i hi
    have hinner : ((List.range d1).flatMap fun j =>
        (List.range d2).map fun k => array3DIndex i j k d0 d1 d2) =
        ((List.range d1).flatMap fun j =>
          (List.range d2).map fun k => (d1 * d2) * i + (d2 * j + k)) := by
      apply List.flatMap_congr
      intro j hj
      apply List.map_congr_left
      intro k hk
      rw [array3DIndex_eq_of_valid (List.mem_range.mp hi)
        (List.mem_range.mp hj) (List.mem_range.mp hk) hw]
      ring
    rw [hinner, rangeFlat2 d1 d2 (fun m => (d1 * d2) * i + m)]
  rw [hcongr, Nat.mul_assoc]
  simpa using rangeFlat2 d0 (d1 * d2) (fun m : Nat => m)

/-- Errors from the spec's error taxonomy that the modelled accessors can
report. -/
inductive SofaError where
  | shapeMismatch
  | missingVariable
  | ioError
  deriving DecidableEq

/-- A position variable of the underlying array store: its ordered
dimension sizes (as reported by `GetVariableDimensions`) and its flattened
row-major buffer.  The stored doubles are modelled opaquely as integers,
since every claim here concerns lengths, indices and ordering, never
floating-point arithmetic. -/
structure SofaVar where
  dims : List Nat
  data : List Int

/-- Modelled from the spec: the rank-2 position read path
(`GetEmitterPosition(data, dim1, dim2)` and friends; their implementation
file is not part of this repository).  The caller requests 2D access and
receives a `ShapeMismatch` error if the variable's actual rank is not 2;
on success the full flattened buffer is returned, never a partial one. -/
def getPositionValues2D (v : SofaVar) : Except SofaError (List Int) :=
  if v.dims.length = 2 then .ok v.data else .error .shapeMismatch

/-- Modelled from the spec: the rank-3 position read path
(`GetEmitterPosition(data, dim1, dim2, dim3)` and friends).  The caller
requests 3D access and receives a `ShapeMismatch` error if the variable's
actual rank is not 3. -/
def getPositionValues3D (v : SofaVar) : Except SofaError (List Int) :=
  if v.dims.length = 3 then .ok v.data else .error .shapeMismatch

/-- Semantics of `std::vector<double>::resize`: truncate to `n` elements
or pad with zero-initialized elements up to length `n`. -/
def listResize (l : List Int) (n : Nat) : List Int :=
  l.take n ++ List.replicate (n - l.length) 0

/-- The local `pos` buffer of the rank-2 print paths: resized to `n`
elements and then filled through the 2D position read; when the read
reports an error the ignored result leaves the zero-initialized buffer. -/
def fillPos2D (v : SofaVar) (n : Nat) : List Int :=
  match getPositionValues2D v with
  | .ok d => listResize d n
  | .error _ => List.replicate n 0

/-- The local `pos` buffer of the rank-3 print paths: resized to `n`
elements and then filled through the 3D position read. -/
def fillPos3D (v : SofaVar) (n : Nat) : List Int :=
  match getPositionValues3D v with
  | .ok d => listResize d n
  | .error _ => List.replicate n 0

theorem listResize_length (l : List Int) (n : Nat) :
    (listResize l n).length = n := by
  unfold listResize
  rw [List.length_append, List.length_take, List.length_replicate]
  omega

theorem listResize_self (l : List Int) : listResize l l.length = l := by
  unfold listResize
  rw [List.take_length, Nat.sub_self, List.replicate_zero, List.append_nil]

theorem fillPos2D_length (v : SofaVar) (n : Nat) :
    (fillPos2D v n).length = n := by
  unfold fillPos2D
  cases getPositionValues2D v with
  | ok d => exact listResize_length d n
  | error e => exact List.length_replicate n 0

theorem fillPos3D_length (v : SofaVar) (n : Nat) :
    (fillPos3D v n).length = n := by
  unfold fillPos3D
  cases getPositionValues3D v with
  | ok d => exact listResize_length d n
  | error e => exact List.length_replicate n 0

/-- Embedding of `PrintEmitter` (sofainfo.cpp, lines 58-112): fetch the
dims of `EmitterPosition`, assert the rank is 2 or 3 (`none` on assertion
failure), resize the local buffer to the product of the dims, fill it
through the position read of the matching rank, and print the buffer
traversed with the rank-matching row-major index in loop order. -/
def printEmitterValues (v : SofaVar) : Option (List Int) :=
  if v.dims.length = 2 then
    let d0 := v.dims.getD 0 0
    let d1 := v.dims.getD 1 0
    some ((print2DIndices d0 d1).map fun idx =>
      (fillPos2D v (d0 * d1)).getD idx 0)
  else if v.dims.length = 3 then
    let d0 := v.dims.getD 0 0
    let d1 := v.dims.getD 1 0
    let d2 := v.dims.getD 2 0
    some ((print3DIndices d0 d1 d2).map fun idx =>
      (fillPos3D v (d0 * d1 * d2)).getD idx 0)
  else none

/-- Embedding of `PrintReceiver` (sofainfo.cpp, lines 120-174); its body is
line-for-line the same logic as `PrintEmitter`, reading
`ReceiverPosition` instead. -/
def printReceiverValues (v : SofaVar) : Option (List Int) :=
  printEmitterValues v

/-- Embedding of the `ListenerPosition` block of `PrintListener`
(sofainfo.cpp, lines 182-216): assert rank 2 (`none` on assertion
failure), resize to `dims[0]*dims[1]`, fill through the 2D position read,
and print with the 2D row-major traversal. -/
def printListenerValues (v : SofaVar) : Option (List Int) :=
  if v.dims.length = 2 then
    let d0 := v.dims.getD 0 0
    let d1 := v.dims.getD 1 0
    some ((print2DIndices d0 d1).map fun idx =>
      (fillPos2D v (d0 * d1)).getD idx 0)
  else none

/-- Embedding of `PrintSource` (sofainfo.cpp, lines 297-331); same rank-2
only structure as the `ListenerPosition` block, reading
`SourcePosition`. -/
def printSourceValues (v : SofaVar) : Option (List Int) :=
  printListenerValues v

theorem getPositionValues2D_ok {v : SofaVar} (h2 : v.dims.length = 2) :
    getPositionValues2D v = .ok v.data := by
  unfold getPositionValues2D
  rw [if_pos h2]

theorem getPositionValues3D_ok {v : SofaVar} (h3 : v.dims.length = 3) :
    getPositionValues3D v = .ok v.data := by
  unfold getPositionValues3D
  rw [if_pos h3]

/-- On a rank-2 variable whose buffer has the declared size, the 2D
row-major print traversal reproduces the stored buffer element by element
in storage order. -/
theorem traverse2_eq (v : SofaVar) (h2 : v.dims.length = 2)
    (hlen : v.data.length = v.dims.prod) (hw : v.dims.prod ≤ wordMod) :
    ((print2DIndices (v.dims.getD 0 0) (v.dims.getD 1 0)).map fun idx =>
      (fillPos2D v (v.dims.getD 0 0 * v.dims.getD 1 0)).getD idx 0) =
    v.data := by
  obtain ⟨a, b, hab⟩ := List.length_eq_two.mp h2
  have e0 : v.dims.getD 0 0 = a := by rw [hab]; rfl
  have e1 : v.dims.getD 1 0 = b := by rw [hab]; rfl
  have eprod : v.dims.prod = a * b := by rw [hab]; simp
  have efill : fillPos2D v (a * b) = v.data := by
    unfold fillPos2D
    rw [getPositionValues2D_ok h2]
    show listResize v.data (a * b) = v.data
    rw [← eprod, ← hlen, listResize_self]
  rw [e0, e1, efill, print2DIndices_eq_range (eprod ▸ hw), ← eprod, ← hlen,
    map_getD_range]

/-- On a rank-3 variable whose buffer has the declared size, the 3D
row-major print traversal reproduces the stored buffer element by element
in storage order. -/
theorem traverse3_eq (v : SofaVar) (h3 : v.dims.length = 3)
    (hlen : v.data.length = v.dims.prod) (hw : v.dims.prod ≤ wordMod) :
    ((print3DIndices (v.dims.getD 0 0) (v.dims.getD 1 0)
        (v.dims.getD 2 0)).map fun idx =>
      (fillPos3D v (v.dims.getD 0 0 * v.dims.getD 1 0 *
        v.dims.getD 2 0)).getD idx 0) =
    v.data := by
  obtain ⟨a, b, c, habc⟩ := List.length_eq_three.mp h3
  have e0 : v.dims.getD 0 0 = a := by rw [habc]; rfl
  have e1 : v.dims.getD 1 0 = b := by rw [habc]; rfl
  have e2 : v.dims.getD 2 0 = c := by rw [habc]; rfl
  have eprod : v.dims.prod = a * b * c := by rw [habc]; simp [Nat.mul_assoc]
  have efill : fillPos3D v (a * b * c) = v.data := by
    unfold fillPos3D
    rw [getPositionValues3D_ok h3]
    show listResize v.data (a * b * c) = v.data
    rw [← eprod, ← hlen, listResize_self]
  rw [e0, e1, e2, efill, print3DIndices_eq_range (eprod ▸ hw), ← eprod,
    ← hlen, map_getD_range]

/-- Claim C4: the Receiver and Emitter position print paths detect the
variable's resolved rank: on rank 2 the `dims[0]*dims[1]` buffer is
traversed with the 2D row-major index, on rank 3 the
`dims[0]*dims[1]*dims[2]` buffer with the 3D row-major index — in both
cases reproducing the stored buffer exactly — and a position read of the
rank the file does not have yields a `ShapeMismatch` error. -/
theorem print_rank_dispatch (v : SofaVar)
    (hlen : v.data.length = v.dims.prod) (hw : v.dims.prod ≤ wordMod) :
    (v.dims.length = 2 → printEmitterValues v = some v.data ∧
      printReceiverValues v = some v.data) ∧
    (v.dims.length = 3 → printEmitterValues v = some v.data ∧
      printReceiverValues v = some v.data) ∧
    (v.dims.length = 3 → getPositionValues2D v = .error .shapeMismatch) ∧
    (v.dims.length = 2 → getPositionValues3D v = .error .shapeMismatch) := by
  refine ⟨fun h2 => ?_, fun h3 => ?_, fun h3 => ?_, fun h2 => ?_⟩
  · have he : printEmitterValues v = some v.data := by
      unfold printEmitterValues
      rw [if_pos h2]
      exact congrArg some (traverse2_eq v h2 hlen hw)
    exact ⟨he, he⟩
  · have he : printEmitterValues v = some v.data := by
      unfold printEmitterValues
      rw [if_neg (by omega), if_pos h3]
      exact congrArg some (traverse3_eq v h3 hlen hw)
    exact ⟨he, he⟩
  · unfold getPositionValues2D
    rw [if_neg (by omega)]
  · unfold getPositionValues3D
    rw [if_neg (by omega)]

/-- Witness for C4 on the concrete rank-2 variable `⟨[2,3], 6 values⟩` and
the concrete rank-3 variable `⟨[2,2,2], 8 values⟩`. -/
theorem print_rank_dispatch_witness :
    printEmitterValues ⟨[2, 3], [1, 2, 3, 4, 5, 6]⟩ =
      some [1, 2, 3, 4, 5, 6] ∧
    printReceiverValues ⟨[2, 2, 2], [1, 2, 3, 4, 5, 6, 7, 8]⟩ =
      some [1, 2, 3, 4, 5, 6, 7, 8] ∧
    getPositionValues2D ⟨[2, 2, 2], [1, 2, 3, 4, 5, 6, 7, 8]⟩ =
      .error .shapeMismatch ∧
    getPositionValues3D ⟨[2, 3], [1, 2, 3, 4, 5, 6]⟩ =
      .error .shapeMismatch :=
  ⟨((print_rank_dispatch ⟨[2, 3], [1, 2, 3, 4, 5, 6]⟩ (by decide)
      (by decide)).1 (by decide)).1,
   ((print_rank_dispatch ⟨[2, 2, 2], [1, 2, 3, 4, 5, 6, 7, 8]⟩ (by decide)
      (by decide)).2.1 (by decide)).2,
   (print_rank_dispatch ⟨[2, 2, 2], [1, 2, 3, 4, 5, 6, 7, 8]⟩ (by decide)
      (by decide)).2.2.1 (by decide),
   (print_rank_dispatch ⟨[2, 3], [1, 2, 3, 4, 5, 6]⟩ (by decide)
      (by decide)).2.2.2 (by decide)⟩

/-- Claim C5: requesting 2D access to a `ListenerPosition` variable whose
actual rank is 3 fails with a `ShapeMismatch` error, and the CLI's
`PrintListener` path (which asserts rank 2) never silently reinterprets
the rank-3 data as rank-2. -/
theorem listener_rank3_2d_fails (v : SofaVar) (h3 : v.dims.length = 3) :
    getPositionValues2D v = .error .shapeMismatch ∧
    printListenerValues v = none := by
  constructor
  · unfold getPositionValues2D
    rw [if_neg (by omega)]
  · unfold printListenerValues
    rw [if_neg (by omega)]

/-- Witness for C5 on a concrete `[1,3,2]`-shaped (rank-3) variable. -/
theorem listener_rank3_2d_fails_witness :
    getPositionValues2D ⟨[1, 3, 2], [1, 2, 3, 4, 5, 6]⟩ =
      .error .shapeMismatch ∧
    printListenerValues ⟨[1, 3, 2], [1, 2, 3, 4, 5, 6]⟩ = none :=
  listener_rank3_2d_fails ⟨[1, 3, 2], [1, 2, 3, 4, 5, 6]⟩ (by decide)

/-- Claim C9: in the position-printing routines the `pos` buffer is resized
to exactly the product of the dimension sizes reported by
`GetVariableDimensions`, and every flat index computed inside the nested
loops (bounded by those same dimension sizes) is strictly below that
product, so the loops never index past the end of the allocated buffer. -/
theorem print_loops_in_bounds (v : SofaVar) (d0 d1 d2 : Nat)
    (hw2 : d0 * d1 ≤ wordMod) (hw3 : d0 * d1 * d2 ≤ wordMod) :
    (fillPos2D v (d0 * d1)).length = d0 * d1 ∧
    (fillPos3D v (d0 * d1 * d2)).length = d0 * d1 * d2 ∧
    (print2DIndices d0 d1).all (fun x => decide (x < d0 * d1)) = true ∧
    (print3DIndices d0 d1 d2).all
      (fun x => decide (x < d0 * d1 * d2)) = true := by
  refine ⟨fillPos2D_length v _, fillPos3D_length v _, ?_, ?_⟩
  · rw [print2DIndices_eq_range hw2]
    simp
  · rw [print3DIndices_eq_range hw3]
    simp

/-- Witness for C9 at the concrete shape `[2,3,4]` on a concrete
variable. -/
theorem print_loops_in_bounds_witness :
    (fillPos2D ⟨[2, 3], [1, 2, 3, 4, 5, 6]⟩ (2 * 3)).length = 2 * 3 ∧
    (fillPos3D ⟨[2, 3], [1, 2, 3, 4, 5, 6]⟩ (2 * 3 * 4)).length =
      2 * 3 * 4 ∧
    (print2DIndices 2 3).all (fun x => decide (x < 2 * 3)) = true ∧
    (print3DIndices 2 3 4).all (fun x => decide (x < 2 * 3 * 4)) = true :=
  print_loops_in_bounds ⟨[2, 3], [1, 2, 3, 4, 5, 6]⟩ 2 3 4 (by decide)
    (by decide)

/-- Modelled from the spec: an opened `FreeFieldDirectivityTF` file.  The
implementation file behind `SOFAFreeFieldDirectivityTF.h` is not part of
this repository, so the file is modelled by its resolved dimension sizes
`M`, `R`, `N` and the store's raw flattened buffers for `Data.Real`,
`Data.Imag` and the frequency variable `N` (doubles again modelled
opaquely as integers). -/
structure DirectivityFile where
  M : Nat
  R : Nat
  N : Nat
  dataRealRaw : List Int
  dataImagRaw : List Int
  freqRaw : List Int

/-- Modelled from the spec: `GetDataReal` returns the full `[M,R,N]`
buffer; any mismatch between the store's reported size and the resolved
`M*R*N` is a fatal `ShapeMismatch`, never a silently truncated or padded
buffer. -/
def GetDataReal (f : DirectivityFile) : Except SofaError (List Int) :=
  if f.dataRealRaw.length = f.M * f.R * f.N then .ok f.dataRealRaw
  else .error .shapeMismatch

/-- Modelled from the spec: `GetDataImag`, same contract as `GetDataReal`
for the `Data.Imag` buffer. -/
def GetDataImag (f : DirectivityFile) : Except SofaError (List Int) :=
  if f.dataImagRaw.length = f.M * f.R * f.N then .ok f.dataImagRaw
  else .error .shapeMismatch

/-- Modelled from the spec: `GetFrequencyValues` returns the sequence of
`N` doubles of the frequency axis in file order, unmodified; a store
buffer of any other size is a `ShapeMismatch`, never a partial result. -/
def GetFrequencyValues (f : DirectivityFile) : Except SofaError (List Int) :=
  if f.freqRaw.length = f.N then .ok f.freqRaw
  else .error .shapeMismatch

/-- Claim C3: `GetDataReal` and `GetDataImag` return buffers whose length
exactly equals the product of the three resolved dimension sizes `M*R*N`;
whenever the store's reported size differs from the resolved `M*R*N` the
access fails with a fatal `ShapeMismatch` instead of yielding a truncated
or padded buffer. -/
theorem data_accessor_shape_exact (f : DirectivityFile) :
    (f.dataRealRaw.length = f.M * f.R * f.N →
      GetDataReal f = .ok f.dataRealRaw) ∧
    (f.dataImagRaw.length = f.M * f.R * f.N →
      GetDataImag f = .ok f.dataImagRaw) ∧
    (f.dataRealRaw.length ≠ f.M * f.R * f.N →
      GetDataReal f = .error .shapeMismatch) ∧
    (f.dataImagRaw.length ≠ f.M * f.R * f.N →
      GetDataImag f = .error .shapeMismatch) := by
  unfold GetDataReal GetDataImag
  refine ⟨fun h => ?_, fun h => ?_, fun h => ?_, fun h => ?_⟩
  · rw [if_pos h]
  · rw [if_pos h]
  · rw [if_neg h]
  · rw [if_neg h]

/-- Witness for C3 on a concrete matching file (`M=2, R=1, N=3`, buffers
of length 6) and a concrete mismatching one (buffers of length 5). -/
theorem data_accessor_shape_exact_witness :
    GetDataReal ⟨2, 1, 3, [1, 2, 3, 4, 5, 6], [6, 5, 4, 3, 2, 1], [9]⟩ =
      .ok [1, 2, 3, 4, 5, 6] ∧
    GetDataImag ⟨2, 1, 3, [1, 2, 3, 4, 5, 6], [6, 5, 4, 3, 2, 1], [9]⟩ =
      .ok [6, 5, 4, 3, 2, 1] ∧
    GetDataReal ⟨2, 1, 3, [1, 2, 3, 4, 5], [6, 5, 4, 3, 2], [9]⟩ =
      .error .shapeMismatch ∧
    GetDataImag ⟨2, 1, 3, [1, 2, 3, 4, 5], [6, 5, 4, 3, 2], [9]⟩ =
      .error .shapeMismatch :=
  ⟨(data_accessor_shape_exact
      ⟨2, 1, 3, [1, 2, 3, 4, 5, 6], [6, 5, 4, 3, 2, 1], [9]⟩).1 (by decide),
   (data_accessor_shape_exact
      ⟨2, 1, 3, [1, 2, 3, 4, 5, 6], [6, 5, 4, 3, 2, 1], [9]⟩).2.1
      (by decide),
   (data_accessor_shape_exact
      ⟨2, 1, 3, [1, 2, 3, 4, 5], [6, 5, 4, 3, 2], [9]⟩).2.2.1 (by decide),
   (data_accessor_shape_exact
      ⟨2, 1, 3, [1, 2, 3, 4, 5], [6, 5, 4, 3, 2], [9]⟩).2.2.2 (by decide)⟩

/-- The frequency values printed by the frequency block of `main`
(sofainfo.cpp, lines 463-475): the bool result of `GetFrequencyValues` is
ignored and `frequencies[0..N-1]` is printed unconditionally.  The call is
modelled as the pair of its bool result and the vector contents after the
call. -/
def mainPrintedFreqs (call : Bool × List Int) (N : Nat) : List Int :=
  (List.range N).map fun i => call.2.getD i 0

/-- The data values printed by the `Data.Real` / `Data.Imag` block of
`main` (sofainfo.cpp, lines 478-514): the bool result is ignored and the
vector is read at `array3DIndex(i,j,k,M,R,N)` for all `i<M, j<R, k<N`. -/
def mainPrintedData (call : Bool × List Int) (M R N : Nat) : List Int :=
  (print3DIndices M R N).map fun idx => call.2.getD idx 0

/-- Claim C6: on a file whose `N` dimension resolves to `n` (and whose
store holds `n` frequency doubles), `GetFrequencyValues` returns exactly
those `n` doubles in file order, unmodified, and `main`'s frequency loop
prints exactly them. -/
theorem frequency_values_exact (f : DirectivityFile)
    (h : f.freqRaw.length = f.N) :
    GetFrequencyValues f = .ok f.freqRaw ∧
    mainPrintedFreqs (true, f.freqRaw) f.N = f.freqRaw := by
  constructor
  · unfold GetFrequencyValues
    rw [if_pos h]
  · unfold mainPrintedFreqs
    rw [← h, map_getD_range]

/-- Witness for C6 on a concrete file with `N = 5`, matching the spec's
scenario. -/
theorem frequency_values_exact_witness :
    GetFrequencyValues ⟨1, 1, 5, [], [], [100, 200, 300, 400, 500]⟩ =
      .ok [100, 200, 300, 400, 500] ∧
    mainPrintedFreqs (true, [100, 200, 300, 400, 500]) 5 =
      [100, 200, 300, 400, 500] :=
  frequency_values_exact ⟨1, 1, 5, [], [], [100, 200, 300, 400, 500]⟩
    (by decide)

/-- Outcome of the try-block of `main` on the named file, abstracting the
array-store engine: the file is rejected by `IsValid()`, rejected by the
`FreeFieldDirectivityTF` validator, fully processed, or an exception
escapes to the catch blocks. -/
inductive RunOutcome where
  | notSofa
  | notDirectivity
  | done
  | thrown
  deriving DecidableEq

/-- The spellings accepted as a help flag by `main` (sofainfo.cpp,
line 352). -/
def helpFlags : List String := ["h", "-h", "--h", "--help", "-help"]

/-- Result of one CLI invocation: whether the help text was displayed, and
the process exit code. -/
structure CliResult where
  helpShown : Bool
  exitCode : Nat
  deriving DecidableEq

/-- Embedding of `main`'s argument handling and exit-code logic
(sofainfo.cpp, lines 339-362 and 517-528).  `args` is `argv[1..]` (so
`argc == 2` is `args.length = 1`) and `run` abstracts the try-block's
processing of the named file.  With exactly one argument that is a help
flag, help is displayed and the code is 0; with any other argument count,
help is displayed and the code is 0; otherwise the file is processed and
an escaping exception yields `exit(1)` while every other outcome returns
0. -/
def cliMain (args : List String) (run : String → RunOutcome) : CliResult :=
  if args.length = 1 then
    if args.getD 0 "" ∈ helpFlags then ⟨true, 0⟩
    else
      match run (args.getD 0 "") with
      | .thrown => ⟨false, 1⟩
      | _ => ⟨false, 0⟩
  else ⟨true, 0⟩

/-- A processing function that completes without an exception, for use at
concrete inputs. -/
def runNoThrow : String → RunOutcome := fun _ => .done

/-- A processing function in which a file-open, validation, or read
exception is raised, for use at concrete inputs. -/
def runThrow : String → RunOutcome := fun _ => .thrown

/-- Claim C7: the CLI takes a single positional file-path argument plus a
help flag; a help-flag invocation displays help and exits 0, every exit
code is 0 or 1, and the exit code is 1 exactly when the single argument is
not a help flag and a file-open, validation, or read exception is
raised. -/
theorem cli_exit_codes (args : List String) (run : String → RunOutcome) :
    (args.length = 1 → args.getD 0 "" ∈ helpFlags →
      (cliMain args run).helpShown = true ∧
      (cliMain args run).exitCode = 0) ∧
    ((cliMain args run).exitCode = 0 ∨ (cliMain args run).exitCode = 1) ∧
    ((cliMain args run).exitCode = 1 ↔
      (args.length = 1 ∧ args.getD 0 "" ∉ helpFlags ∧
        run (args.getD 0 "") = .thrown)) := by
  unfold cliMain
  by_cases h1 : args.length = 1
  · rw [if_pos h1]
    by_cases hh : args.getD 0 "" ∈ helpFlags
    · rw [if_pos hh]
      refine ⟨fun _ _ => ⟨rfl, rfl⟩, Or.inl rfl, ?_⟩
      constructor
      · intro hc
        exact absurd hc (by decide)
      · rintro ⟨-, hnot, -⟩
        exact absurd hh hnot
    · rw [if_neg hh]
      cases hr : run (args.getD 0 "") with
      | thrown => exact ⟨fun _ hc => absurd hc hh, Or.inr rfl,
          ⟨fun _ => ⟨h1, hh, rfl⟩, fun _ => rfl⟩⟩
      | notSofa =>
        refine ⟨fun _ hc => absurd hc hh, Or.inl rfl, ?_, ?_⟩
        · intro hc
          exact absurd hc (by decide)
        · rintro ⟨-, -, hth⟩
          exact absurd hth (by decide)
      | notDirectivity =>
        refine ⟨fun _ hc => absurd hc hh, Or.inl rfl, ?_, ?_⟩
        · intro hc
          exact absurd hc (by decide)
        · rintro ⟨-, -, hth⟩
          exact absurd hth (by decide)
      | done =>
        refine ⟨fun _ hc => absurd hc hh, Or.inl rfl, ?_, ?_⟩
        · intro hc
          exact absurd hc (by decide)
        · rintro ⟨-, -, hth⟩
          exact absurd hth (by decide)
  · rw [if_neg h1]
    exact ⟨fun hc _ => absurd hc h1, Or.inl rfl, by simp [h1]⟩

/-- Witness for C7: a help invocation, a successful run, and a run whose
processing raises an exception, all at concrete inputs. -/
theorem cli_exit_codes_witness :
    ((cliMain ["--help"] runNoThrow).helpShown = true ∧
      (cliMain ["--help"] runNoThrow).exitCode = 0) ∧
    ((cliMain ["f.sofa"] runNoThrow).exitCode = 1 ↔
      (["f.sofa"].length = 1 ∧ (["f.sofa"].getD 0 "") ∉ helpFlags ∧
        runNoThrow (["f.sofa"].getD 0 "") = RunOutcome.thrown)) ∧
    ((cliMain ["f.sofa"] runThrow).exitCode = 1 ↔
      (["f.sofa"].length = 1 ∧ (["f.sofa"].getD 0 "") ∉ helpFlags ∧
        runThrow (["f.sofa"].getD 0 "") = RunOutcome.thrown)) :=
  ⟨(cli_exit_codes ["--help"] runNoThrow).1 (by decide) (by decide),
   (cli_exit_codes ["f.sofa"] runNoThrow).2.2,
   (cli_exit_codes ["f.sofa"] runThrow).2.2⟩

/-- Claim C10: `main` ignores the boolean success results of
`GetFrequencyValues`, `GetDataReal` and `GetDataImag` (the printed values
do not depend on the flag) and unconditionally reads positions `0..N-1`
resp. `0..M*R*N-1` of the output vectors; those reads are all within
bounds precisely when the call filled its vector to at least that length,
and out of bounds otherwise. -/
theorem main_reads_unchecked (b b' : Bool) (l l2 : List Int) (M R N : Nat)
    (hw : M * R * N ≤ wordMod) :
    mainPrintedFreqs (b, l) N = mainPrintedFreqs (b', l) N ∧
    mainPrintedData (b, l2) M R N = mainPrintedData (b', l2) M R N ∧
    print3DIndices M R N = List.range (M * R * N) ∧
    ((List.range N).all (fun i => decide (i < l.length)) = true ↔
      N ≤ l.length) ∧
    ((print3DIndices M R N).all (fun x => decide (x < l2.length)) = true ↔
      M * R * N ≤ l2.length) := by
  refine ⟨rfl, rfl, print3DIndices_eq_range hw, ?_, ?_⟩
  · constructor
    · intro hall
      rcases Nat.lt_or_ge l.length N with hlt | hge
      · have := List.all_eq_true.mp hall l.length
          (List.mem_range.mpr hlt)
        simp at this
      · exact hge
    · intro hle
      exact List.all_eq_true.mpr fun i hi => by
        simp only [decide_eq_true_eq]
        exact Nat.lt_of_lt_of_le (List.mem_range.mp hi) hle
  · rw [print3DIndices_eq_range hw]
    constructor
    · intro hall
      rcases Nat.lt_or_ge l2.length (M * R * N) with hlt | hge
      · have := List.all_eq_true.mp hall l2.length
          (List.mem_range.mpr hlt)
        simp at this
      · exact hge
    · intro hle
      exact List.all_eq_true.mpr fun i hi => by
        simp only [decide_eq_true_eq]
        exact Nat.lt_of_lt_of_le (List.mem_range.mp hi) hle

/-- Witness for C10 at concrete inputs: `M=2, R=1, N=3`, one vector long
enough and one too short. -/
theorem main_reads_unchecked_witness :
    mainPrintedFreqs (true, [7, 8]) 3 = mainPrintedFreqs (false, [7, 8]) 3 ∧
    mainPrintedData (true, [7, 8]) 2 1 3 =
      mainPrintedData (false, [7, 8]) 2 1 3 ∧
    print3DIndices 2 1 3 = List.range (2 * 1 * 3) ∧
    ((List.range 3).all (fun i => decide (i < [(7 : Int), 8].length)) =
      true ↔ 3 ≤ [(7 : Int), 8].length) ∧
    ((print3DIndices 2 1 3).all
      (fun x => decide (x < [(7 : Int), 8].length)) = true ↔
      2 * 1 * 3 ≤ [(7 : Int), 8].length) :=
  main_reads_unchecked true false [7, 8] [7, 8] 2 1 3 (by decide)
